import Mathlib

/-!
Shallow embedding of the `logfaker` data-generation pipeline
(`logfaker/generators/content.py`, `logfaker/generators/users.py`,
`logfaker/generators/queries.py`, `logfaker/utils/csv.py`,
`logfaker/utils/importer.py`) together with proofs of the specified
properties.

Modelling conventions:
* The generative oracle (OpenAI chat completion) is an explicit function
  parameter; one oracle call corresponds to one application, and runs are
  instrumented with call counters so that "without invoking the oracle"
  becomes a provable statement.
* The filesystem is explicit state: one slot per CSV file, holding the
  parsed collection (`none` models a missing or unparsable file).
* The category-accumulation `while` loop of `_load_or_generate_categories`
  is given explicit fuel; `none` as overall result models divergence
  (the loop never reaching `min_count` categories).
* Python exceptions are `Except`/`Option` results; machine floats of the
  CTR computation are idealised as `Rat`.
-/

namespace Logfaker

/-- Modelled from the spec (section 3): the `Category` record
`{id, name, description}`.  The class itself is absent from the provided
`logfaker/core/models.py` (a superseded historical variant); every use in
`content.py`, `users.py` and the tests constructs exactly these fields. -/
structure Category where
  id : Nat
  name : String
  description : String
deriving DecidableEq

/-- Modelled from the spec (section 3): the `Content` record
`{content_id, title, description, category}`; absent from the provided
`models.py` variant, constructed with exactly these fields at
`content.py:136-141` and in `csv.py`/`importer.py`. -/
structure Content where
  content_id : Nat
  title : String
  description : String
  category : String
deriving DecidableEq

/-- Modelled from the spec (section 3): the final `UserProfile` record
`{user_id, brief_explanation, profession, preferences}`.  The provided
`models.py` holds a superseded variant (with `age`/`gender`, without
`brief_explanation`); `users.py:126-131`, `csv.py:74-82`,
`importer.py:53-58` and the tests all use this shape. -/
structure UserProfile where
  user_id : Nat
  brief_explanation : String
  profession : String
  preferences : List String
deriving DecidableEq

/-- `SearchResult` from `models.py` (timestamp-free part); the
`relevance_score` float is idealised as a rational. -/
structure SearchResult where
  content_id : Nat
  title : String
  url : String
  relevance_score : Option Rat
deriving DecidableEq

/-- `SearchQuery` from `models.py`; the wall-clock `timestamp` field
(`datetime.utcnow`) is outside the embedding. -/
structure SearchQuery where
  query_id : Nat
  user_id : Nat
  query_content : String
  category : String
deriving DecidableEq

/-- The slice of `GeneratorConfig` (`core/config.py`) the generators
consult: prompt ingredients and whether `output_dir` is configured. -/
structure GeneratorConfig where
  service_type : String
  language : String
  hasOutputDir : Bool
deriving DecidableEq

/-! ### Dynamically typed values

`validate_preferences` (`users.py:28-40`) is duck-typed: `users.py` calls
it on two lists of strings, while `importer.py:48` calls it with a list of
`Category` objects in the `category_names` position.  We embed the Python
values it can receive as a sum, with Python `==` semantics: a string never
equals a `Category` object. -/

inductive PyVal where
  | str (s : String)
  | cat (c : Category)
deriving DecidableEq

/-- Python `==` on the embedded values: strings compare by content,
`Category` (pydantic) objects compare by fields, and a string compared
with a `Category` object is `False`. -/
def pyEq : PyVal → PyVal → Bool
  | .str a, .str b => a == b
  | .cat a, .cat b => decide (a = b)
  | _, _ => false

/-- `UserGenerator.validate_preferences` (`users.py:28-40`):
keep the preferences present in `category_names` (Python `in`, i.e.
`pyEq` against some element); if none survive, fall back to
`[category_names[0]]`.  The fallback indexes an empty list when
`category_names` is empty: Python raises `IndexError`, modelled as
`none`. -/
def validatePreferences (preferences category_names : List PyVal) :
    Option (List PyVal) :=
  let valid := preferences.filter (fun p => category_names.any (fun c => pyEq p c))
  if valid.isEmpty then
    match category_names with
    | [] => none
    | c :: _ => some [c]
  else
    some valid

/-! ### Query generation (`queries.py`) -/

/-- Python `random.seed(seed); random.randint(lo, hi)`: a deterministic
function of the seed with inclusive bounds.  `mt` abstracts the seeded
Mersenne-Twister draw; the `lo + _ % (hi - lo + 1)` shape supplies the
documented range guarantee for any `mt`. -/
def pyRandint (mt : Nat → Nat) (seed lo hi : Nat) : Nat :=
  lo + mt seed % (hi - lo + 1)

/-- `QueryGenerator.simulate_engagement` (`queries.py:98-124`):
`random.seed(user.user_id)`, `clicks = random.randint(0, min(5, len(results)))`,
`ctr = clicks / len(results) if results else 0.0`. -/
def simulateEngagement (mt : Nat → Nat) (user : UserProfile)
    (results : List SearchResult) : Nat × Rat :=
  let clicks := pyRandint mt user.user_id 0 (min 5 results.length)
  let ctr : Rat := if results.isEmpty then 0 else (clicks : Rat) / (results.length : Rat)
  (clicks, ctr)

/-- The system message `QueryGenerator.generate_query` sends to the oracle
(`queries.py:51-58`), built from the comma-joined full preference list and
the user's `brief_explanation`. -/
def generateQueryMessage (cfg : GeneratorConfig) (user : UserProfile) : String :=
  "Generate a search query for " ++ cfg.service_type ++ " in " ++ cfg.language ++
    ". User interests: " ++ String.intercalate ", " user.preferences ++
    ". User background: " ++ user.brief_explanation

/-- `QueryGenerator._create_query_prompt` (`queries.py:90-96`). -/
def createQueryPrompt (cfg : GeneratorConfig) (user : UserProfile) : String :=
  "Generate a search query for " ++ cfg.service_type ++ " in " ++ cfg.language ++
    ". User interests: " ++ String.intercalate ", " user.preferences ++
    ". User background: " ++ user.brief_explanation

/-- Modelled from the spec (section 4.4) for the refinement comparison:
the prompt shape the spec describes, built from ONE selected preference
`pref` of the user plus the `brief_explanation`. -/
def specSingleInterestPrompt (cfg : GeneratorConfig) (user : UserProfile)
    (pref : String) : String :=
  "Generate a search query for " ++ cfg.service_type ++ " in " ++ cfg.language ++
    ". User interests: " ++ pref ++
    ". User background: " ++ user.brief_explanation

/-- The amended prompt description, written independently from the spec's
vocabulary: the full preference list, comma-joined, plus the user's
background. -/
def specAllInterestsPrompt (cfg : GeneratorConfig) (user : UserProfile) : String :=
  "Generate a search query for " ++ cfg.service_type ++ " in " ++ cfg.language ++
    ". User interests: " ++ String.intercalate ", " user.preferences ++
    ". User background: " ++ user.brief_explanation

/-- `QueryGenerator.generate_query` (`queries.py:23-72`): send the message,
parse `(query_content, category)` from the oracle, build the query. -/
def generateQuery (oracle : String → String × String) (cfg : GeneratorConfig)
    (user : UserProfile) (query_id : Nat) : SearchQuery :=
  let r := oracle (generateQueryMessage cfg user)
  ⟨query_id, user.user_id, r.1, r.2⟩

/-! ### Content generation (`content.py`)

State of a `ContentGenerator`: the in-memory category cache
(`self._categories`) plus the two CSV files it consults.  A file slot holds
the parsed collection; `none` models a missing (or unparsable) file. -/

structure FileSystem where
  categoriesFile : Option (List Category)
  contentsFile : Option (List Content)
deriving DecidableEq

structure ContentGenState where
  cache : Option (List Category)
  fs : FileSystem
deriving DecidableEq

/-- The single error of `generate_contents` (`exceptions.py`,
`content.py:224-225`). -/
inductive ContentGenError where
  | limitExceeded
deriving DecidableEq

/-- Instrumentation of one `generate_contents` run: how many times each
oracle was invoked and which `min_count` was passed to
`_load_or_generate_categories` (`none` when the category store was never
consulted). -/
structure GenTrace where
  categoryOracleCalls : Nat
  contentOracleCalls : Nat
  minCountRequested : Option Nat
deriving DecidableEq

/-- The filtering loop of `_generate_categories` (`content.py:87-93`):
append each oracle-proposed `(name, description)` whose name is not
already known, recording the name.  (`existing_names` is always a set
here, as on the call path from `_load_or_generate_categories`.) -/
def genCategoriesBatch : List (String × String) → List Category → List String →
    List Category × List String
  | [], cats, names => (cats, names)
  | (n, d) :: rest, cats, names =>
    if names.isEmpty || !names.contains n then
      genCategoriesBatch rest (cats ++ [⟨0, n, d⟩]) (names ++ [n])
    else
      genCategoriesBatch rest cats names

/-- The `while len(categories) < min_count` loop of
`_load_or_generate_categories` (`content.py:169-171`), with fuel.
Returns the accumulated categories and the number of oracle batches
requested; `none` models the loop never terminating. -/
def categoryLoop (oracle : Nat → List (String × String)) (minCount : Nat) :
    Nat → Nat → List Category → List String → Option (List Category × Nat)
  | 0, calls, cats, _ =>
    if minCount ≤ cats.length then some (cats, calls) else none
  | fuel + 1, calls, cats, names =>
    if minCount ≤ cats.length then some (cats, calls)
    else
      let p := genCategoriesBatch (oracle calls) cats names
      categoryLoop oracle minCount fuel (calls + 1) p.1 p.2

/-- Id reassignment of `_load_or_generate_categories`
(`content.py:174-175`): `cat.id = i + 1` in accumulation order. -/
def reassignIds (cats : List Category) : List Category :=
  cats.enum.map (fun p => { p.2 with id := p.1 + 1 })

/-- Modelled from the spec (sections 4.1, 4.5): `CsvImporter.import_categories`,
referenced at `content.py:153` but absent from the provided
`utils/importer.py` variant — it parses `categories.csv` back into the
persisted category list (a missing or column-less file yields no data). -/
def importCategories (fs : FileSystem) : Option (List Category) :=
  fs.categoriesFile

/-- The generation arm of `_load_or_generate_categories`
(`content.py:162-182`): start from `self._categories or []`, request
batches until `min_count` is reached, reassign ids, persist when an
output directory is configured, update the cache. -/
def generateCategoriesPath (cfg : GeneratorConfig)
    (oracle : Nat → List (String × String)) (fuel : Nat)
    (st : ContentGenState) (minCount : Nat) :
    Option (List Category × ContentGenState × Nat) :=
  let start := st.cache.getD []
  match categoryLoop oracle minCount fuel 0 start (start.map (·.name)) with
  | none => none
  | some (cats0, calls) =>
    let cats := reassignIds cats0
    let fs := if cfg.hasOutputDir then { st.fs with categoriesFile := some cats }
              else st.fs
    some (cats, ⟨some cats, fs⟩, calls)

/-- The CSV-then-generate tail of `_load_or_generate_categories`
(`content.py:149-182`): with an output directory configured and an
existing, nonempty persisted set of at least `min_count` categories, adopt
it; otherwise generate. -/
def loadCsvOrGenerate (cfg : GeneratorConfig)
    (oracle : Nat → List (String × String)) (fuel : Nat)
    (st : ContentGenState) (minCount : Nat) :
    Option (List Category × ContentGenState × Nat) :=
  if cfg.hasOutputDir then
    match importCategories st.fs with
    | some l =>
      if !l.isEmpty && minCount ≤ l.length then
        some (l, { st with cache := some l }, 0)
      else generateCategoriesPath cfg oracle fuel st minCount
    | none => generateCategoriesPath cfg oracle fuel st minCount
  else generateCategoriesPath cfg oracle fuel st minCount

/-- `ContentGenerator._load_or_generate_categories` (`content.py:143-182`):
serve from the cache when it already holds `min_count` categories, else
try the persisted CSV, else generate.  The third component counts
category-oracle calls. -/
def loadOrGenerateCategories (cfg : GeneratorConfig)
    (oracle : Nat → List (String × String)) (fuel : Nat)
    (st : ContentGenState) (minCount : Nat) :
    Option (List Category × ContentGenState × Nat) :=
  match st.cache with
  | some c =>
    if minCount ≤ c.length then some (c, st, 0)
    else loadCsvOrGenerate cfg oracle fuel st minCount
  | none => loadCsvOrGenerate cfg oracle fuel st minCount

/-- `ContentGenerator._try_load_contents` (`content.py:184-202`): reuse the
persisted contents when the file exists, parsed nonempty, and holds at
least `count` entries; return its first `count` entries. -/
def tryLoadContents (fs : FileSystem) (count : Nat) : Option (List Content) :=
  match fs.contentsFile with
  | some l => if !l.isEmpty && count ≤ l.length then some (l.take count) else none
  | none => none

def defaultCategory : Category := ⟨0, "", ""⟩

def defaultContent : Content := ⟨0, "", "", ""⟩

/-- The generation arm of `generate_contents` (`content.py:232-248`):
obtain categories with the DEFAULT `min_count` (the call at
`content.py:233` passes no argument, so `min_count = 100`), then for
`i in range(count)` generate one item for `categories[i % len(categories)]`
with `content_id = i + 1`.  An empty category list (Python
`ZeroDivisionError`, unreachable since the store returns at least
`min_count = 100` categories) is modelled as `none`. -/
def generateContentsGenPath (cfg : GeneratorConfig)
    (catOracle : Nat → List (String × String))
    (contentOracle : Nat → Category → String × String) (fuel : Nat)
    (st : ContentGenState) (count : Nat) :
    Option (Except ContentGenError (List Content) × ContentGenState × GenTrace) :=
  match loadOrGenerateCategories cfg catOracle fuel st 100 with
  | none => none
  | some (cats, st1, calls) =>
    if cats.isEmpty then none
    else
      let contents := (List.range count).map (fun i =>
        let c := cats.getD (i % cats.length) defaultCategory
        let td := contentOracle i c
        Content.mk (i + 1) td.1 td.2 c.name)
      some (.ok contents, st1, ⟨calls, count, some 100⟩)

/-- `ContentGenerator.generate_contents` (`content.py:204-248`): fail fast
above 1000, otherwise try reuse (`reuse_file`), otherwise generate. -/
def generateContents (cfg : GeneratorConfig)
    (catOracle : Nat → List (String × String))
    (contentOracle : Nat → Category → String × String) (fuel : Nat)
    (st : ContentGenState) (count : Nat) (reuse_file : Bool) :
    Option (Except ContentGenError (List Content) × ContentGenState × GenTrace) :=
  if 1000 < count then some (.error .limitExceeded, st, ⟨0, 0, none⟩)
  else
    match (if reuse_file then tryLoadContents st.fs count else none) with
    | some (c :: cs) => some (.ok (c :: cs), st, ⟨0, 0, none⟩)
    | _ => generateContentsGenPath cfg catOracle contentOracle fuel st count

/-! ### CSV export / import (`utils/csv.py`, `utils/importer.py`)

A CSV cell is either a number (written by the `csv` module as its decimal
string and read back through Python `int(...)`) or a plain string; the
decimal-string mechanics themselves are CSV I/O, outside the core per the
spec (section 1).  The exporters write fixed four-column rows whose column
order matches the header both sides use, so a row is a four-field record. -/

inductive Field where
  | num (n : Nat)
  | str (s : String)
deriving DecidableEq

/-- Python `int(cell)`: a numeric cell parses to itself, a string cell
through decimal parsing (`none` models `ValueError`). -/
def pyInt : Field → Option Nat
  | .num n => some n
  | .str s => s.toNat?

/-- Reading a cell as text (the `csv` module hands all cells over as
their string form). -/
def fieldStr : Field → String
  | .num n => Nat.repr n
  | .str s => s

structure CsvRow where
  c1 : Field
  c2 : Field
  c3 : Field
  c4 : Field
deriving DecidableEq

/-- `CsvExporter.export_content` (`csv.py:41-61`): one row
`[content_id, title, description, category]` per entity. -/
def exportContent (cs : List Content) : List CsvRow :=
  cs.map (fun c => ⟨.num c.content_id, .str c.title, .str c.description, .str c.category⟩)

/-- `CsvExporter.export_users` (`csv.py:63-83`): one row
`[user_id, brief_explanation, profession, ",".join(preferences)]` per user. -/
def exportUsers (us : List UserProfile) : List CsvRow :=
  us.map (fun u => ⟨.num u.user_id, .str u.brief_explanation, .str u.profession,
                    .str (String.intercalate "," u.preferences)⟩)

/-- Row loop of `CsvImporter.import_content` (`importer.py:16-32`). -/
def importContentRows : List CsvRow → Except Unit (List Content)
  | [] => .ok []
  | r :: rest =>
    match pyInt r.c1 with
    | none => .error ()
    | some n =>
      match importContentRows rest with
      | .error e => .error e
      | .ok cs => .ok (⟨n, fieldStr r.c2, fieldStr r.c3, fieldStr r.c4⟩ :: cs)

/-- `CsvImporter.import_content` (`importer.py:16-32`): a missing file
returns "no data" (`none`); an unparsable id raises (`Except.error`). -/
def importContent (file : Option (List CsvRow)) :
    Except Unit (Option (List Content)) :=
  match file with
  | none => .ok none
  | some rows =>
    match importContentRows rows with
    | .error e => .error e
    | .ok cs => .ok (some cs)

/-- Python `cell.split(",")` on the underlying character list (structural,
so that concrete imports compute): `"" ↦ [""]`, and every comma starts a
new piece. -/
def splitCharsOnComma : List Char → List String
  | [] => [""]
  | c :: rest =>
    let r := splitCharsOnComma rest
    if c = ',' then "" :: r
    else
      match r with
      | [] => [String.mk [c]]
      | h :: t => String.mk (c :: h.data) :: t

def pySplitComma (s : String) : List String :=
  splitCharsOnComma s.data

/-- Python `str.strip()`: drop whitespace from both ends. -/
def pyStrip (s : String) : String :=
  String.mk (((s.data.dropWhile Char.isWhitespace).reverse.dropWhile
    Char.isWhitespace).reverse)

/-- Preferences of all-string shape, as pydantic `List[str]` validation of
`UserProfile.preferences` demands; a non-string element (a `Category`
object) makes the construction raise `ValidationError` (`none`). -/
def allStr : List PyVal → Option (List String)
  | [] => some []
  | .str s :: rest => (allStr rest).map (s :: ·)
  | .cat _ :: _ => none

/-- The per-row preference rework of `CsvImporter.import_users`
(`importer.py:42-52`): split the joined cell on `","`, strip each entry,
and when a truthy `categories` list is supplied, re-validate — passing the
`Category` OBJECTS where `validate_preferences` expects NAMES — then keep
the raw strings found among the returned values, falling back to the
returned values themselves when none survive. -/
def importUserPrefs (cell : String) (categories : Option (List Category)) :
    Except Unit (List String) :=
  let prefs := (pySplitComma cell).map pyStrip
  match categories with
  | some (k :: ks) =>
    match validatePreferences (prefs.map .str) ((k :: ks).map .cat) with
    | none => .error ()
    | some valid =>
      let kept := prefs.filter (fun p => valid.any (fun v => pyEq (.str p) v))
      let final : List PyVal := if kept.isEmpty then valid else kept.map .str
      match allStr final with
      | none => .error ()
      | some ss => .ok ss
  | _ => .ok prefs

/-- Row loop of `CsvImporter.import_users` (`importer.py:35-62`). -/
def importUserRows (categories : Option (List Category)) :
    List CsvRow → Except Unit (List UserProfile)
  | [] => .ok []
  | r :: rest =>
    match pyInt r.c1 with
    | none => .error ()
    | some n =>
      match importUserPrefs (fieldStr r.c4) categories with
      | .error e => .error e
      | .ok prefs =>
        match importUserRows categories rest with
        | .error e => .error e
        | .ok us => .ok (⟨n, fieldStr r.c2, fieldStr r.c3, prefs⟩ :: us)

/-- `CsvImporter.import_users` (`importer.py:35-62`): missing file yields
"no data"; pydantic `ValidationError` (and `IndexError`) raised inside the
row loop propagate, as they are not in the caught `(FileNotFoundError,
KeyError)` pair. -/
def importUsers (file : Option (List CsvRow)) (categories : Option (List Category)) :
    Except Unit (Option (List UserProfile)) :=
  match file with
  | none => .ok none
  | some rows =>
    match importUserRows categories rows with
    | .error e => .error e
    | .ok us => .ok (some us)

/-! ### Concrete example data for witnesses and counterexamples -/

/-- A configuration with `output_dir` set. -/
def exCfg : GeneratorConfig := ⟨"svc", "en", true⟩

/-- An oracle answering every category batch request with 100 fresh
distinct categories (the "approximately 100" of `content.py:70`). -/
def exOracle100 : Nat → List (String × String) := fun _ =>
  (List.range 100).map (fun i => ("c" ++ Nat.repr i, "d"))

/-- An oracle that never proposes a category. -/
def exOracleEmpty : Nat → List (String × String) := fun _ => []

/-- A content oracle returning a fixed title and description. -/
def exContentOracle : Nat → Category → String × String := fun _ _ => ("t", "d")

/-- Five persisted categories. -/
def exCats5 : List Category := (List.range 5).map (fun i => ⟨i + 1, "n" ++ Nat.repr i, "d"⟩)

/-- One hundred cached categories. -/
def exCats100 : List Category := (List.range 100).map (fun i => ⟨i + 1, "c" ++ Nat.repr i, "d"⟩)

/-- A generator whose cache already holds 100 categories; no files. -/
def exStateCache : ContentGenState := ⟨some exCats100, ⟨none, none⟩⟩

def exContent0 : Content := ⟨1, "t", "d", "n0"⟩

/-- No cache, no `categories.csv`, a persisted `contents.csv` holding one
entry. -/
def exStateC3 : ContentGenState := ⟨none, ⟨none, some [exContent0]⟩⟩

/-- No cache, a persisted `categories.csv` holding five entries, no
`contents.csv`. -/
def exStateC4 : ContentGenState := ⟨none, ⟨some exCats5, none⟩⟩

/-- A cached category list DIFFERENT from the persisted one. -/
def exStateC5 : ContentGenState := ⟨some [⟨1, "A", "a"⟩], ⟨some [⟨1, "B", "b"⟩], none⟩⟩

/-- A persisted `contents.csv` with two entries. -/
def exContent1 : Content := ⟨2, "t2", "d2", "n1"⟩

def exStateReuse : ContentGenState := ⟨none, ⟨none, some [exContent0, exContent1]⟩⟩

def exUser0 : UserProfile := ⟨1, "b", "p", ["X"]⟩

def exCatX : Category := ⟨1, "X", "d"⟩

def exUserAB : UserProfile := ⟨1, "bg", "dev", ["A", "B"]⟩

def exCfgQ : GeneratorConfig := ⟨"svc", "en", false⟩

def exResult : Nat → SearchResult := fun i => ⟨i, "r", "u", none⟩

/-! ## Helper lemmas -/

theorem filter_pyEq_str (prefs names : List String) :
    (prefs.map PyVal.str).filter
        (fun p => (names.map PyVal.str).any (fun c => pyEq p c)) =
      (prefs.filter (fun p => names.any (fun c => p == c))).map PyVal.str := by
  induction prefs with
  | nil => rfl
  | cons a l ih =>
    have ha : ∀ ns : List String,
        ((ns.map PyVal.str).any (fun c => pyEq (PyVal.str a) c)) =
          (ns.any (fun c => a == c)) := by
      intro ns
      induction ns with
      | nil => rfl
      | cons b t iht =>
        simp only [List.map_cons, List.any_cons, iht]
        rfl
    simp only [List.map_cons, List.filter_cons, ha, ih]
    cases names.any (fun c => a == c) <;> simp

/-- Characterisation of `validate_preferences` on the string-typed calls
made by `users.py`. -/
theorem validatePreferences_str (prefs names : List String) :
    validatePreferences (prefs.map PyVal.str) (names.map PyVal.str) =
      (if (prefs.filter (fun p => names.any (fun c => p == c))).isEmpty then
         match names with
         | [] => none
         | n :: _ => some [PyVal.str n]
       else some ((prefs.filter (fun p => names.any (fun c => p == c))).map PyVal.str)) := by
  unfold validatePreferences
  rw [filter_pyEq_str]
  cases hk : prefs.filter (fun p => names.any (fun c => p == c)) with
  | nil => cases names <;> simp
  | cons b t => simp

theorem isEmpty_eq_of_length_eq {α β : Type} {l1 : List α} {l2 : List β}
    (h : l1.length = l2.length) : l1.isEmpty = l2.isEmpty := by
  cases l1 <;> cases l2 <;> simp_all

theorem categoryLoop_some_length (oracle : Nat → List (String × String))
    (minCount : Nat) :
    ∀ (fuel calls : Nat) (cats : List Category) (names : List String)
      (res : List Category × Nat),
      categoryLoop oracle minCount fuel calls cats names = some res →
      minCount ≤ res.1.length := by
  intro fuel
  induction fuel with
  | zero =>
    intro calls cats names res h
    by_cases hc : minCount ≤ cats.length
    · simp only [categoryLoop, if_pos hc, Option.some_inj] at h
      subst h; exact hc
    · simp [categoryLoop, hc] at h
  | succ n ih =>
    intro calls cats names res h
    by_cases hc : minCount ≤ cats.length
    · simp only [categoryLoop, if_pos hc, Option.some_inj] at h
      subst h; exact hc
    · simp only [categoryLoop, if_neg hc] at h
      exact ih _ _ _ _ h

theorem reassignIds_length (cats : List Category) :
    (reassignIds cats).length = cats.length := by
  simp [reassignIds]

theorem generateCategoriesPath_some_length (cfg : GeneratorConfig)
    (oracle : Nat → List (String × String)) (fuel : Nat)
    (st : ContentGenState) (minCount : Nat)
    (res : List Category × ContentGenState × Nat)
    (h : generateCategoriesPath cfg oracle fuel st minCount = some res) :
    minCount ≤ res.1.length := by
  simp only [generateCategoriesPath] at h
  split at h
  · exact Option.noConfusion h
  · next cats0 calls hl =>
    simp only [Option.some_inj] at h
    subst h
    simpa [reassignIds_length] using
      categoryLoop_some_length oracle minCount fuel 0 _ _ _ hl

theorem loadCsvOrGenerate_some_length (cfg : GeneratorConfig)
    (oracle : Nat → List (String × String)) (fuel : Nat)
    (st : ContentGenState) (minCount : Nat)
    (res : List Category × ContentGenState × Nat)
    (h : loadCsvOrGenerate cfg oracle fuel st minCount = some res) :
    minCount ≤ res.1.length := by
  unfold loadCsvOrGenerate at h
  split at h
  · split at h
    · split at h
      · next l hcond =>
        simp only [Option.some_inj] at h
        subst h
        have := (Bool.and_eq_true _ _).mp hcond
        exact of_decide_eq_true this.2
      · exact generateCategoriesPath_some_length _ _ _ _ _ _ h
    · exact generateCategoriesPath_some_length _ _ _ _ _ _ h
  · exact generateCategoriesPath_some_length _ _ _ _ _ _ h

theorem loadOrGenerateCategories_some_length (cfg : GeneratorConfig)
    (oracle : Nat → List (String × String)) (fuel : Nat)
    (st : ContentGenState) (minCount : Nat)
    (res : List Category × ContentGenState × Nat)
    (h : loadOrGenerateCategories cfg oracle fuel st minCount = some res) :
    minCount ≤ res.1.length := by
  unfold loadOrGenerateCategories at h
  split at h
  · next c =>
    split at h
    · next hl =>
      simp only [Option.some_inj] at h
      subst h; exact hl
    · exact loadCsvOrGenerate_some_length _ _ _ _ _ _ h
  · exact loadCsvOrGenerate_some_length _ _ _ _ _ _ h

/-- The content half of the export/import round trip does hold:
re-importing an exported content collection restores it field for field
(supporting lemma for the user-profile round-trip bug below). -/
theorem importContentRows_export (l : List Content) :
    importContentRows (exportContent l) = .ok l := by
  induction l with
  | nil => rfl
  | cons c t ih =>
    simp only [exportContent, List.map_cons] at ih ⊢
    simp only [importContentRows, pyInt, fieldStr, ih]

theorem content_export_import_roundtrip (cs : List Content) :
    importContent (some (exportContent cs)) = .ok (some cs) := by
  simp [importContent, importContentRows_export cs]

/-! ## Claim theorems -/

/-- C6, counterexample: `validate_preferences(["x"], [])` does not return
the promised fallback list — with an empty `category_names` the fallback
`category_names[0]` raises `IndexError` (modelled as `none`), so the
"never raises, never empty" part of the claim is false for the empty
category-name list. -/
theorem validate_preferences_c6_counterexample :
    validatePreferences [PyVal.str "x"] [] = none := rfl

/-- C6 (amended: category-name list required non-empty):
`validate_preferences(preferences, category_names)` with non-empty
`category_names` returns, without raising, exactly the entries of
`preferences` that occur in `category_names` in their original order, or
the one-element list holding the first category name when no entry
matches; the result is never empty. -/
theorem validate_preferences_filter_or_fallback (prefs names : List String)
    (h : names ≠ []) :
    ∃ r, validatePreferences (prefs.map PyVal.str) (names.map PyVal.str) = some r ∧
      r ≠ [] ∧
      r = (if (prefs.filter (fun p => names.any (fun c => p == c))).isEmpty then
             [PyVal.str (names.headD "")]
           else (prefs.filter (fun p => names.any (fun c => p == c))).map PyVal.str) := by
  rw [validatePreferences_str]
  cases names with
  | nil => exact absurd rfl h
  | cons n t =>
    by_cases hk : (prefs.filter (fun p => (n :: t).any (fun c => p == c))).isEmpty = true
    · rw [if_pos hk, if_pos hk]
      exact ⟨[PyVal.str n], rfl, by simp, rfl⟩
    · rw [if_neg hk, if_neg hk]
      have hne : prefs.filter (fun p => (n :: t).any (fun c => p == c)) ≠ [] := by
        intro he
        rw [he] at hk
        exact hk rfl
      refine ⟨_, rfl, ?_, rfl⟩
      intro hm
      exact hne (List.map_eq_nil_iff.mp hm)

/-- C6 witness: a concrete call with mixed valid/invalid preferences. -/
theorem validate_preferences_filter_or_fallback_witness :
    ∃ r, validatePreferences (["x", "b"].map PyVal.str) (["b", "c"].map PyVal.str) =
        some r ∧
      r ≠ [] ∧
      r = (if (["x", "b"].filter (fun p => ["b", "c"].any (fun c => p == c))).isEmpty
           then [PyVal.str (["b", "c"].headD "")]
           else (["x", "b"].filter (fun p => ["b", "c"].any (fun c => p == c))).map
                  PyVal.str) :=
  validate_preferences_filter_or_fallback ["x", "b"] ["b", "c"] (by decide)

/-- C10: the never-empty, never-raising guarantee of
`validate_preferences` holds exactly under the precondition that
`category_names` is non-empty: with a non-empty category-name list the
call returns a non-empty list, and with an empty category-name list every
call (no preference can match) reaches `category_names[0]` and fails
(`none` = `IndexError`) instead of returning. -/
theorem validate_preferences_nonempty_precondition :
    (∀ prefs names : List String, names ≠ [] →
      ∃ r, validatePreferences (prefs.map PyVal.str) (names.map PyVal.str) = some r ∧
        r ≠ []) ∧
    (∀ prefs : List String,
      validatePreferences (prefs.map PyVal.str) [] = none) := by
  constructor
  · intro prefs names h
    rw [validatePreferences_str]
    cases names with
    | nil => exact absurd rfl h
    | cons n t =>
      by_cases hk : (prefs.filter (fun p => (n :: t).any (fun c => p == c))).isEmpty = true
      · rw [if_pos hk]
        exact ⟨[PyVal.str n], rfl, by simp⟩
      · rw [if_neg hk]
        have hne : prefs.filter (fun p => (n :: t).any (fun c => p == c)) ≠ [] := by
          intro he
          rw [he] at hk
          exact hk rfl
        refine ⟨_, rfl, ?_⟩
        intro hm
        exact hne (List.map_eq_nil_iff.mp hm)
  · intro prefs
    have hfil : (prefs.map PyVal.str).filter
        (fun p => ([] : List PyVal).any (fun c => pyEq p c)) = [] := by
      simp
    unfold validatePreferences
    rw [hfil]
    rfl

/-- C10 witness: concrete instances of both halves. -/
theorem validate_preferences_nonempty_precondition_witness :
    (∃ r, validatePreferences (["a"].map PyVal.str) (["b"].map PyVal.str) = some r ∧
      r ≠ []) ∧
    validatePreferences (["a"].map PyVal.str) [] = none :=
  ⟨validate_preferences_nonempty_precondition.1 ["a"] ["b"] (by decide),
   validate_preferences_nonempty_precondition.2 ["a"]⟩

/-- C7: `simulate_engagement` is a deterministic function of
`user.user_id` and `len(results)` (for any fixed seeded-generator
behaviour `mt`), with `0 ≤ clicks ≤ min(5, len(results))`,
`ctr = clicks / len(results)` on non-empty results and `ctr = 0.0` on
empty results. -/
theorem simulate_engagement_spec :
    (∀ (mt : Nat → Nat) (u1 u2 : UserProfile) (rs1 rs2 : List SearchResult),
      u1.user_id = u2.user_id → rs1.length = rs2.length →
      simulateEngagement mt u1 rs1 = simulateEngagement mt u2 rs2) ∧
    (∀ (mt : Nat → Nat) (u : UserProfile) (rs : List SearchResult),
      (simulateEngagement mt u rs).1 ≤ min 5 rs.length) ∧
    (∀ (mt : Nat → Nat) (u : UserProfile) (rs : List SearchResult), rs ≠ [] →
      (simulateEngagement mt u rs).2 =
        ((simulateEngagement mt u rs).1 : Rat) / (rs.length : Rat)) ∧
    (∀ (mt : Nat → Nat) (u : UserProfile),
      (simulateEngagement mt u []).2 = 0) := by
  refine ⟨?_, ?_, ?_, ?_⟩
  · intro mt u1 u2 rs1 rs2 hu hl
    unfold simulateEngagement pyRandint
    rw [hu, hl, isEmpty_eq_of_length_eq hl]
  · intro mt u rs
    have hlt : mt u.user_id % (min 5 rs.length - 0 + 1) < min 5 rs.length - 0 + 1 :=
      Nat.mod_lt _ (Nat.succ_pos _)
    show 0 + mt u.user_id % (min 5 rs.length - 0 + 1) ≤ min 5 rs.length
    omega
  · intro mt u rs h
    cases rs with
    | nil => exact absurd rfl h
    | cons a t => rfl
  · intro mt u
    rfl

/-- C7 witness: equal engagement for two different users sharing a
`user_id` over equally long result lists, and the CTR equation on a
concrete non-empty result list. -/
theorem simulate_engagement_spec_witness :
    simulateEngagement (fun _ => 7) ⟨1, "a", "b", []⟩ [exResult 1, exResult 2] =
      simulateEngagement (fun _ => 7) ⟨1, "c", "d", ["p"]⟩ [exResult 3, exResult 4] ∧
    (simulateEngagement (fun _ => 7) exUser0 [exResult 1]).2 =
      ((simulateEngagement (fun _ => 7) exUser0 [exResult 1]).1 : Rat) /
        (([exResult 1] : List SearchResult).length : Rat) :=
  ⟨simulate_engagement_spec.1 _ _ _ _ _ rfl rfl,
   simulate_engagement_spec.2.2.1 _ _ _ (List.cons_ne_nil _ _)⟩

/-- C8, counterexample: for the user with preferences `["A", "B"]` the
prompt `generate_query` actually builds (equal to the
`_create_query_prompt` helper) differs from the spec's single-interest
prompt for EVERY possible randomly selected preference of that user, so
the prompt is not built from one selected preference. -/
theorem query_prompt_single_pref_counterexample :
    createQueryPrompt exCfgQ exUserAB ≠ specSingleInterestPrompt exCfgQ exUserAB "A" ∧
    createQueryPrompt exCfgQ exUserAB ≠ specSingleInterestPrompt exCfgQ exUserAB "B" ∧
    generateQueryMessage exCfgQ exUserAB = createQueryPrompt exCfgQ exUserAB := by
  refine ⟨?_, ?_, rfl⟩ <;> decide

/-- C8 (amended): `generate_query` builds its oracle prompt from the
user's FULL preference list, comma-joined, together with the user's
`brief_explanation` — the same prompt `_create_query_prompt` builds — and
the generated query is assembled from the oracle's answer to exactly that
prompt. -/
theorem query_prompt_full_preferences (cfg : GeneratorConfig) (user : UserProfile) :
    generateQueryMessage cfg user = createQueryPrompt cfg user ∧
    generateQueryMessage cfg user = specAllInterestsPrompt cfg user ∧
    ∀ (oracle : String → String × String) (qid : Nat),
      generateQuery oracle cfg user qid =
        ⟨qid, user.user_id, (oracle (specAllInterestsPrompt cfg user)).1,
          (oracle (specAllInterestsPrompt cfg user)).2⟩ :=
  ⟨rfl, rfl, fun _ _ => rfl⟩

/-- C9: the user-profile half of the export/import round trip is broken.
Exporting the single user `⟨1, "b", "p", ["X"]⟩` and re-importing with the
category list `[⟨1, "X", "d"⟩]` (exactly how `generate_users` calls
`import_users`, passing `Category` OBJECTS where `validate_preferences`
expects NAMES) raises instead of returning the user: no string preference
can equal a `Category` object, so everything is filtered out, the fallback
inserts the `Category` object itself into `preferences`, and
`UserProfile` validation fails.  (`content_export_import_roundtrip` above
shows the content half round-trips correctly.) -/
theorem users_export_import_validation_bug :
    importUsers (some (exportUsers [exUser0])) (some [exCatX]) = .error () := rfl

/-- With `reuse_file = false` and `count` within the cap,
`generate_contents` is exactly its generation arm. -/
theorem generateContents_false_eq (cfg : GeneratorConfig)
    (catOracle : Nat → List (String × String))
    (contentOracle : Nat → Category → String × String) (fuel : Nat)
    (st : ContentGenState) (count : Nat) (h : ¬ 1000 < count) :
    generateContents cfg catOracle contentOracle fuel st count false =
      generateContentsGenPath cfg catOracle contentOracle fuel st count := by
  unfold generateContents
  rw [if_neg h]
  rfl

/-- Value of the generation arm once the category store has answered with
a non-empty list. -/
theorem generateContentsGenPath_eq (cfg : GeneratorConfig)
    (catOracle : Nat → List (String × String))
    (contentOracle : Nat → Category → String × String) (fuel : Nat)
    (st : ContentGenState) (count : Nat) (cats : List Category)
    (st2 : ContentGenState) (calls : Nat)
    (hcats : loadOrGenerateCategories cfg catOracle fuel st 100 =
      some (cats, st2, calls))
    (hne : cats ≠ []) :
    generateContentsGenPath cfg catOracle contentOracle fuel st count =
      some (.ok ((List.range count).map (fun i =>
          let c := cats.getD (i % cats.length) defaultCategory
          let td := contentOracle i c
          Content.mk (i + 1) td.1 td.2 c.name)),
        st2, ⟨calls, count, some 100⟩) := by
  cases cats with
  | nil => exact absurd rfl hne
  | cons a t =>
    unfold generateContentsGenPath
    rw [hcats]
    rfl

theorem getD_map_range {α : Type} (f : Nat → α) (n i : Nat) (d : α) (h : i < n) :
    ((List.range n).map f).getD i d = f i := by
  rw [List.getD_eq_getElem?_getD, List.getElem?_map, List.getElem?_range h]
  rfl

/-- C1: for every `count ≤ 1000`, any terminating
`generate_contents(count, reuse=false)` run returns exactly `count`
entries and never raises; for `count > 1000` it fails with
`ContentGenerationError` immediately — unchanged state, zero
category-oracle calls, zero content-oracle calls, category store never
consulted. -/
theorem generate_contents_count_and_limit (cfg : GeneratorConfig)
    (catOracle : Nat → List (String × String))
    (contentOracle : Nat → Category → String × String) (fuel : Nat)
    (st : ContentGenState) (count : Nat) :
    (count ≤ 1000 →
      ∀ r st1 tr,
        generateContents cfg catOracle contentOracle fuel st count false =
          some (r, st1, tr) →
        ∃ l, r = .ok l ∧ l.length = count) ∧
    (1000 < count →
      generateContents cfg catOracle contentOracle fuel st count false =
        some (.error .limitExceeded, st, ⟨0, 0, none⟩)) := by
  constructor
  · intro hle r st1 tr hrun
    rw [generateContents_false_eq cfg catOracle contentOracle fuel st count
      (by omega)] at hrun
    unfold generateContentsGenPath at hrun
    split at hrun
    · exact Option.noConfusion hrun
    · split at hrun
      · exact Option.noConfusion hrun
      · simp only [Option.some_inj, Prod.mk.injEq] at hrun
        exact ⟨_, hrun.1.symm, by simp⟩
  · intro hgt
    unfold generateContents
    rw [if_pos hgt]

/-- C1 witness: a 2-item run returns 2 items, and a 1001-item request
fails fast. -/
theorem generate_contents_count_and_limit_witness :
    (∃ r st1 tr,
      generateContents exCfg exOracle100 exContentOracle 0 exStateCache 2 false =
        some (r, st1, tr) ∧ ∃ l, r = Except.ok l ∧ l.length = 2) ∧
    generateContents exCfg exOracle100 exContentOracle 0 exStateCache 1001 false =
      some (.error .limitExceeded, exStateCache, ⟨0, 0, none⟩) :=
  ⟨⟨_, _, _, rfl,
    (generate_contents_count_and_limit exCfg exOracle100 exContentOracle 0
      exStateCache 2).1 (by decide) _ _ _ rfl⟩,
   (generate_contents_count_and_limit exCfg exOracle100 exContentOracle 0
      exStateCache 1001).2 (by decide)⟩

/-- C2: in the generation path, category assignment is strictly
round-robin by index: with `cats` the category list the store supplied,
the `i`-th generated content's category is `cats[i % len(cats)].name`,
and equivalently equals the `(i % len(cats))`-th content's category. -/
theorem generate_contents_round_robin (cfg : GeneratorConfig)
    (catOracle : Nat → List (String × String))
    (contentOracle : Nat → Category → String × String) (fuel : Nat)
    (st : ContentGenState) (count : Nat) (l : List Content)
    (st1 : ContentGenState) (tr : GenTrace) (cats : List Category)
    (cst : ContentGenState) (calls : Nat)
    (hcount : count ≤ 1000)
    (hrun : generateContents cfg catOracle contentOracle fuel st count false =
      some (.ok l, st1, tr))
    (hcats : loadOrGenerateCategories cfg catOracle fuel st 100 =
      some (cats, cst, calls))
    (i : Nat) (hi : i < count) :
    (l.getD i defaultContent).category =
      (cats.getD (i % cats.length) defaultCategory).name ∧
    (l.getD i defaultContent).category =
      (l.getD (i % cats.length) defaultContent).category := by
  have hne : cats ≠ [] := by
    have h100 := loadOrGenerateCategories_some_length cfg catOracle fuel st 100
      (cats, cst, calls) hcats
    intro hnil
    rw [hnil] at h100
    simp at h100
  rw [generateContents_false_eq cfg catOracle contentOracle fuel st count
    (by omega)] at hrun
  rw [generateContentsGenPath_eq cfg catOracle contentOracle fuel st count cats
    cst calls hcats hne] at hrun
  simp only [Option.some_inj, Prod.mk.injEq] at hrun
  obtain ⟨hok, -, -⟩ := hrun
  have hl : l = (List.range count).map (fun i =>
      let c := cats.getD (i % cats.length) defaultCategory
      let td := contentOracle i c
      Content.mk (i + 1) td.1 td.2 c.name) := by
    exact (Except.ok.inj hok).symm
  have him : i % cats.length < count :=
    lt_of_le_of_lt (Nat.mod_le _ _) hi
  rw [hl, getD_map_range _ _ _ _ hi, getD_map_range _ _ _ _ him]
  constructor
  · rfl
  · show (cats.getD (i % cats.length) defaultCategory).name =
      (cats.getD (i % cats.length % cats.length) defaultCategory).name
    rw [Nat.mod_mod_of_dvd i (dvd_refl cats.length)]

/-- C2 witness: a concrete generation-path run with 100 cached categories
and `count = 3`, checked at index `i = 2`. -/
theorem generate_contents_round_robin_witness :
    ∃ (l : List Content) (st1 : ContentGenState) (tr : GenTrace)
      (cats : List Category) (cst : ContentGenState) (calls : Nat),
      generateContents exCfg exOracle100 exContentOracle 0 exStateCache 3 false =
        some (.ok l, st1, tr) ∧
      loadOrGenerateCategories exCfg exOracle100 0 exStateCache 100 =
        some (cats, cst, calls) ∧
      ((l.getD 2 defaultContent).category =
        (cats.getD (2 % cats.length) defaultCategory).name ∧
       (l.getD 2 defaultContent).category =
        (l.getD (2 % cats.length) defaultContent).category) :=
  ⟨_, _, _, _, _, _, rfl, rfl,
   generate_contents_round_robin exCfg exOracle100 exContentOracle 0 exStateCache
     3 _ _ _ _ _ _ (by decide) rfl rfl 2 (by decide)⟩

/-- C3, counterexample: with `N = 0`, a persisted `contents.csv` holding 1
(`≥ N`) entry, and no persisted categories, `generate_contents(0,
reuse=true)` still returns the first 0 entries BUT invokes the generative
oracle (one category batch call): the empty reuse slice is falsy, so the
code falls through to the generation path and builds the category set. -/
theorem generate_contents_reuse_counterexample :
    ∃ r st1 tr,
      generateContents exCfg exOracle100 exContentOracle 1 exStateC3 0 true =
        some (r, st1, tr) ∧
      r = Except.ok ([] : List Content) ∧ tr.categoryOracleCalls = 1 :=
  ⟨_, _, _, rfl, rfl, rfl⟩

/-- C3 (amended: `1 ≤ N ≤ 1000`): when a persisted content collection
with at least `N` entries exists, `generate_contents(N, reuse=true)`
returns exactly its first `N` entries — identical `content_id`, `title`,
`description`, `category` — with no oracle call of either kind and the
state untouched.  (`N = 0` falls through to generation, see the
counterexample, and `N > 1000` hits the hard cap.) -/
theorem generate_contents_reuse_first_n (cfg : GeneratorConfig)
    (catOracle : Nat → List (String × String))
    (contentOracle : Nat → Category → String × String) (fuel : Nat)
    (st : ContentGenState) (L : List Content) (N : Nat)
    (hfile : st.fs.contentsFile = some L)
    (hpos : 1 ≤ N) (hlen : N ≤ L.length) (hcap : N ≤ 1000) :
    generateContents cfg catOracle contentOracle fuel st N true =
      some (.ok (L.take N), st, ⟨0, 0, none⟩) := by
  obtain ⟨n, rfl⟩ : ∃ n, N = n + 1 := ⟨N - 1, by omega⟩
  obtain ⟨cache, fs⟩ := st
  obtain ⟨catF, contF⟩ := fs
  simp only at hfile
  subst hfile
  cases L with
  | nil => simp at hlen
  | cons a L2 =>
    have hload : tryLoadContents ⟨catF, some (a :: L2)⟩ (n + 1) =
        some (a :: L2.take n) := by
      have hcond : (!(a :: L2).isEmpty && decide (n + 1 ≤ (a :: L2).length)) = true := by
        rw [decide_eq_true hlen]
        rfl
      show (if (!(a :: L2).isEmpty && decide (n + 1 ≤ (a :: L2).length)) = true then
        some ((a :: L2).take (n + 1)) else none) = some (a :: L2.take n)
      rw [if_pos hcond]
      rfl
    unfold generateContents
    rw [if_neg (by omega : ¬ 1000 < n + 1)]
    have hif : (if true then tryLoadContents ⟨catF, some (a :: L2)⟩ (n + 1)
        else none) = some (a :: L2.take n) := by
      rw [if_pos rfl, hload]
    rw [hif]
    rfl

/-- C3 witness: reusing 1 of 2 persisted entries. -/
theorem generate_contents_reuse_first_n_witness :
    generateContents exCfg exOracle100 exContentOracle 0 exStateReuse 1 true =
      some (.ok ([exContent0, exContent1].take 1), exStateReuse, ⟨0, 0, none⟩) :=
  generate_contents_reuse_first_n exCfg exOracle100 exContentOracle 0 exStateReuse
    [exContent0, exContent1] 1 rfl (by decide) (by decide) (by decide)

/-- C4, counterexample: `generate_contents(3, reuse=false)` with FIVE
persisted categories (≥ the requested `count = 3`) consults the category
store with `min_count = 100` (the default at `content.py:233`), NOT
`min_count = count = 3`: the trace records `min_count = 100` and one
category-oracle batch call, although under the claimed `min_count = 3`
the five persisted categories would have been loaded with no oracle
call. -/
theorem generate_contents_min_count_counterexample :
    ∃ r st1 tr,
      generateContents exCfg exOracle100 exContentOracle 1 exStateC4 3 false =
        some (r, st1, tr) ∧
      tr = ⟨1, 3, some 100⟩ ∧
      importCategories exStateC4.fs = some exCats5 ∧
      exCats5.length = 5 :=
  ⟨_, _, _, rfl, rfl, rfl, rfl⟩

/-- C4 (amended): in the generation path `generate_contents` always asks
the category store for the DEFAULT `min_count = 100`, independent of
`count`. -/
theorem generate_contents_min_count_default (cfg : GeneratorConfig)
    (catOracle : Nat → List (String × String))
    (contentOracle : Nat → Category → String × String) (fuel : Nat)
    (st : ContentGenState) (count : Nat) (r : Except ContentGenError (List Content))
    (st1 : ContentGenState) (tr : GenTrace)
    (hcount : count ≤ 1000)
    (hrun : generateContents cfg catOracle contentOracle fuel st count false =
      some (r, st1, tr)) :
    tr.minCountRequested = some 100 := by
  rw [generateContents_false_eq cfg catOracle contentOracle fuel st count
    (by omega)] at hrun
  unfold generateContentsGenPath at hrun
  split at hrun
  · exact Option.noConfusion hrun
  · split at hrun
    · exact Option.noConfusion hrun
    · simp only [Option.some_inj, Prod.mk.injEq] at hrun
      rw [← hrun.2.2]

/-- C4 witness: a concrete generation-path run whose trace records
`min_count = 100`. -/
theorem generate_contents_min_count_default_witness :
    ∃ r st1 tr,
      generateContents exCfg exOracle100 exContentOracle 0 exStateCache 2 false =
        some (r, st1, tr) ∧ tr.minCountRequested = some 100 :=
  ⟨_, _, _, rfl,
   generate_contents_min_count_default exCfg exOracle100 exContentOracle 0
     exStateCache 2 _ _ _ (by decide) rfl⟩

/-- C5, counterexample: with an in-memory cache `[A]` differing from the
persisted set `[B]` (reachable when another generator sharing the output
directory regenerates the file), `_load_or_generate_categories(1)` returns
the cached `[A]` — it does NOT load and return the persisted set, although
a persisted set with at least `min_count = 1` entries exists at the
configured location. -/
theorem load_categories_cache_shadows_counterexample :
    loadOrGenerateCategories exCfg exOracleEmpty 0 exStateC5 1 =
      some ([⟨1, "A", "a"⟩], exStateC5, 0) ∧
    importCategories exStateC5.fs = some [⟨1, "B", "b"⟩] ∧
    ([⟨1, "A", "a"⟩] : List Category) ≠ [⟨1, "B", "b"⟩] :=
  ⟨rfl, rfl, by decide⟩

/-- C5 (amended: the in-memory cache must not already satisfy the
request): when the output directory is configured, a persisted category
set with at least `min_count` entries exists, and the cache is unset (or
holds fewer than `min_count` entries), `_load_or_generate_categories`
returns the persisted set verbatim with zero oracle calls. -/
theorem load_categories_persisted_reuse (cfg : GeneratorConfig)
    (oracle : Nat → List (String × String)) (fuel : Nat)
    (st : ContentGenState) (minCount : Nat) (L : List Category)
    (hout : cfg.hasOutputDir = true)
    (hfile : st.fs.categoriesFile = some L)
    (hlen : minCount ≤ L.length)
    (hcache : st.cache = none ∨ ∃ c, st.cache = some c ∧ c.length < minCount) :
    ∃ st1, loadOrGenerateCategories cfg oracle fuel st minCount =
      some (L, st1, 0) := by
  obtain ⟨cache, fs⟩ := st
  obtain ⟨catF, contF⟩ := fs
  simp only at hfile hcache
  subst hfile
  have hcsv : loadCsvOrGenerate cfg oracle fuel ⟨cache, ⟨some L, contF⟩⟩ minCount =
      (if (!L.isEmpty && decide (minCount ≤ L.length)) = true then
        some (L, ⟨some L, ⟨some L, contF⟩⟩, 0)
      else generateCategoriesPath cfg oracle fuel ⟨cache, ⟨some L, contF⟩⟩ minCount) := by
    unfold loadCsvOrGenerate
    rw [if_pos hout]
    rfl
  rcases hcache with hnone | ⟨c, hc, hclen⟩
  · subst hnone
    cases L with
    | nil =>
      have hm0 : minCount = 0 := by simpa using hlen
      subst hm0
      refine ⟨⟨some [], ⟨some [], contF⟩⟩, ?_⟩
      show loadCsvOrGenerate cfg oracle fuel ⟨none, ⟨some [], contF⟩⟩ 0 = _
      rw [hcsv]
      rw [if_neg (by simp)]
      unfold generateCategoriesPath
      have hloop : categoryLoop oracle 0 fuel 0 [] [] = some ([], 0) := by
        cases fuel <;> rfl
      rw [show (Option.getD (none : Option (List Category)) []) = ([] : List Category)
        from rfl]
      simp only [List.map_nil]
      rw [hloop, hout]
      rfl
    | cons a L2 =>
      refine ⟨⟨some (a :: L2), ⟨some (a :: L2), contF⟩⟩, ?_⟩
      show loadCsvOrGenerate cfg oracle fuel ⟨none, ⟨some (a :: L2), contF⟩⟩ minCount = _
      rw [hcsv]
      rw [if_pos (by rw [decide_eq_true hlen]; rfl)]
  · subst hc
    have hm1 : 1 ≤ minCount := by omega
    cases L with
    | nil => simp at hlen; omega
    | cons a L2 =>
      refine ⟨⟨some (a :: L2), ⟨some (a :: L2), contF⟩⟩, ?_⟩
      show (if minCount ≤ c.length then some (c, _, 0)
        else loadCsvOrGenerate cfg oracle fuel ⟨some c, ⟨some (a :: L2), contF⟩⟩ minCount) = _
      rw [if_neg (by omega)]
      rw [hcsv]
      rw [if_pos (by rw [decide_eq_true hlen]; rfl)]

/-- C5 witness: a fresh store loads five persisted categories for
`min_count = 3` without any oracle call. -/
theorem load_categories_persisted_reuse_witness :
    ∃ st1, loadOrGenerateCategories exCfg exOracleEmpty 0 exStateC4 3 =
      some (exCats5, st1, 0) :=
  load_categories_persisted_reuse exCfg exOracleEmpty 0 exStateC4 3 exCats5 rfl rfl
    (by decide) (Or.inl rfl)

end Logfaker
